import Mathlib

/-!
Verification development for the Jira-to-GitHub issue creation script
(`scripts/create_issue_mcp.py`).  The script is a single linear pipeline:
load configuration from environment variables, search the target repository
for an existing issue mentioning the Jira key, and either skip (duplicate
found) or create a new issue assigned to the Copilot bot account.

The embedding models the environment as optional string values, the two
outbound HTTP calls as oracles (`SearchOutcome`, `CreateOutcome`), and the
whole run as a pure function producing an observable trace: exit code,
number of search/create requests issued, and the printed lines.
-/

namespace CreateIssue

/-! ### Python string primitives -/

/-- Python whitespace characters recognised by `str.strip()`. -/
def pyWhitespace (c : Char) : Bool :=
  c = ' ' || c = '\t' || c = '\n' || c = '\r' || c = '\x0b' || c = '\x0c'

/-- Python `str.strip()`: drop whitespace from both ends. -/
def pyStrip (s : String) : String :=
  ⟨((s.data.dropWhile pyWhitespace).reverse.dropWhile pyWhitespace).reverse⟩

/-- Python `str.lower()` (ASCII case fold, which covers the priority values). -/
def pyLower (s : String) : String :=
  ⟨s.data.map Char.toLower⟩

/-- Python truthiness of a string: nonempty. -/
def pyTruthy (s : String) : Bool :=
  s != ""

/-- Python truthiness of `os.environ.get` results: `None` and `""` are falsy. -/
def optTruthy : Option String → Bool
  | none => false
  | some s => pyTruthy s

/-- Rendering of an optional string inside a Python f-string: `None` when absent. -/
def optStr : Option String → String
  | none => "None"
  | some s => s

/-- Rendering of an optional integer inside a Python f-string. -/
def optIntStr : Option Int → String
  | none => "None"
  | some i => toString i

/-- Python `sep.join(l)`. -/
def pyJoin (sep : String) : List String → String
  | [] => ""
  | [x] => x
  | x :: y :: xs => x ++ sep ++ pyJoin sep (y :: xs)

/-! ### Substring occurrence, executable over character lists -/

/-- `startsWithL t s`: the pattern `t` is an initial segment of `s`. -/
def startsWithL : List Char → List Char → Bool
  | [], _ => true
  | _ :: _, [] => false
  | a :: as, b :: bs => a == b && startsWithL as bs

/-- `occursInL t s`: the pattern `t` occurs contiguously somewhere in `s`. -/
def occursInL (t : List Char) : List Char → Bool
  | [] => startsWithL t []
  | b :: bs => startsWithL t (b :: bs) || occursInL t bs

/-- `occursB t s`: the string `t` is a contiguous substring of `s`. -/
def occursB (t s : String) : Bool :=
  occursInL t.data s.data

theorem data_append (s t : String) : (s ++ t).data = s.data ++ t.data := by
  cases s; cases t; rfl

theorem startsWithL_refl (l : List Char) : startsWithL l l = true := by
  induction l with
  | nil => rfl
  | cons a as ih => simp [startsWithL, ih]

theorem startsWithL_self_append (t b : List Char) : startsWithL t (t ++ b) = true := by
  induction t with
  | nil => cases b <;> rfl
  | cons a as ih => simp [startsWithL, ih]

theorem startsWithL_extend {t s : List Char} (b : List Char)
    (h : startsWithL t s = true) : startsWithL t (s ++ b) = true := by
  induction t generalizing s with
  | nil => cases s ++ b <;> rfl
  | cons a as ih =>
    cases s with
    | nil => simp [startsWithL] at h
    | cons c cs =>
      simp [startsWithL] at h ⊢
      exact ⟨h.1, ih h.2⟩

theorem occursInL_of_startsWithL {t s : List Char}
    (h : startsWithL t s = true) : occursInL t s = true := by
  cases s with
  | nil => exact h
  | cons b bs => simp [occursInL, h]

theorem occursInL_self (l : List Char) : occursInL l l = true :=
  occursInL_of_startsWithL (startsWithL_refl l)

theorem occursInL_append_left {t s : List Char} (a : List Char)
    (h : occursInL t s = true) : occursInL t (a ++ s) = true := by
  induction a with
  | nil => simpa using h
  | cons x xs ih => simp [occursInL, ih]

theorem occursInL_append_right {t : List Char} (b : List Char) :
    ∀ {s : List Char}, occursInL t s = true → occursInL t (s ++ b) = true := by
  intro s
  induction s with
  | nil =>
    intro h
    cases t with
    | nil =>
      cases b with
      | nil => rfl
      | cons y ys => simp [occursInL, startsWithL]
    | cons a as => simp [occursInL, startsWithL] at h
  | cons x xs ih =>
    intro h
    simp only [occursInL, Bool.or_eq_true] at h
    rcases h with h | h
    · have h2 : startsWithL t (x :: (xs ++ b)) = true := startsWithL_extend b h
      simp [occursInL, h2]
    · simp [occursInL, ih h]

theorem occursB_self (t : String) : occursB t t = true :=
  occursInL_self t.data

theorem occursB_append_left {t s : String} (a : String)
    (h : occursB t s = true) : occursB t (a ++ s) = true := by
  unfold occursB at h ⊢
  rw [data_append]
  exact occursInL_append_left a.data h

theorem occursB_append_right {t s : String} (b : String)
    (h : occursB t s = true) : occursB t (s ++ b) = true := by
  unfold occursB at h ⊢
  rw [data_append]
  exact occursInL_append_right b.data h

theorem occursB_join_of_mem {sep x : String} : ∀ {l : List String}, x ∈ l →
    occursB x (pyJoin sep l) = true := by
  intro l
  induction l with
  | nil => intro h; cases h
  | cons y ys ih =>
    intro h
    cases ys with
    | nil =>
      rcases List.mem_singleton.mp h with rfl
      simpa [pyJoin] using occursB_self x
    | cons z zs =>
      rcases List.mem_cons.mp h with rfl | h
      · show occursB x (x ++ sep ++ pyJoin sep (z :: zs)) = true
        exact occursB_append_right _ (occursB_append_right _ (occursB_self x))
      · show occursB x (y ++ sep ++ pyJoin sep (z :: zs)) = true
        exact occursB_append_left _ (ih h)

/-! ### Configuration (lines 16-24 of the script) -/

/-- The process environment as seen through `os.environ.get`: `none` means the
variable is unset; `some ""` means it is set to the empty string. -/
structure Env where
  GITHUB_TOKEN : Option String
  TARGET_REPO_OWNER : Option String
  TARGET_REPO_NAME : Option String
  JIRA_ISSUE_KEY : Option String
  JIRA_SUMMARY : Option String
  JIRA_DESCRIPTION : Option String
  JIRA_ISSUE_URL : Option String
  JIRA_PRIORITY : Option String
  JIRA_ISSUE_TYPE : Option String

/-- The module-level configuration values, after the `os.environ.get` defaults
are applied.  `GITHUB_TOKEN` and `JIRA_ISSUE_KEY` have no default and stay
optional; the others default per lines 17-24 of the script. -/
structure Config where
  GITHUB_TOKEN : Option String
  TARGET_REPO_OWNER : String
  TARGET_REPO_NAME : String
  JIRA_ISSUE_KEY : Option String
  JIRA_SUMMARY : String
  JIRA_DESCRIPTION : String
  JIRA_ISSUE_URL : String
  JIRA_PRIORITY : String
  JIRA_ISSUE_TYPE : String

/-- Module initialisation: read each variable with its documented default. -/
def loadConfig (env : Env) : Config where
  GITHUB_TOKEN := env.GITHUB_TOKEN
  TARGET_REPO_OWNER := env.TARGET_REPO_OWNER.getD "Karthi-Knackforge"
  TARGET_REPO_NAME := env.TARGET_REPO_NAME.getD "cms-project"
  JIRA_ISSUE_KEY := env.JIRA_ISSUE_KEY
  JIRA_SUMMARY := env.JIRA_SUMMARY.getD ""
  JIRA_DESCRIPTION := env.JIRA_DESCRIPTION.getD ""
  JIRA_ISSUE_URL := env.JIRA_ISSUE_URL.getD ""
  JIRA_PRIORITY := env.JIRA_PRIORITY.getD "Medium"
  JIRA_ISSUE_TYPE := env.JIRA_ISSUE_TYPE.getD "Task"

/-- The `required_vars` dict of `check_required_env_vars`, in insertion order.
The two defaulted values are wrapped in `some` since they are plain strings
at this point. -/
def requiredVars (c : Config) : List (String × Option String) :=
  [("GITHUB_TOKEN", c.GITHUB_TOKEN),
   ("TARGET_REPO_OWNER", some c.TARGET_REPO_OWNER),
   ("TARGET_REPO_NAME", some c.TARGET_REPO_NAME),
   ("JIRA_ISSUE_KEY", c.JIRA_ISSUE_KEY)]

/-- `missing = [var for var, value in required_vars.items() if not value]`. -/
def missingVars (c : Config) : List String :=
  ((requiredVars c).filter (fun p => !optTruthy p.2)).map Prod.fst

/-- The diagnostic line printed when some required variables are missing. -/
def missingMsg (missing : List String) : String :=
  "❌ Error: Missing required environment variables: " ++ pyJoin ", " missing

/-! ### Issue body formatter (`create_copilot_optimized_issue_body`) -/

/-- The fixed four-item acceptance-criteria checklist block of the body
template, verbatim and in order. -/
def checklistBlock : String :=
  "- [ ] Implementation matches the requirements described above\n- [ ] Code follows project conventions and best practices\n- [ ] Tests are added/updated to cover changes\n- [ ] Documentation is updated if needed"

/-- The literal placeholder used when the description is falsy. -/
def noDescription : String := "No description provided."

/-- `create_copilot_optimized_issue_body`: the f-string template with the
description (stripped when truthy, else the placeholder), the Jira key, url,
priority and type interpolated. -/
def create_copilot_optimized_issue_body (c : Config) : String :=
  let description := if pyTruthy c.JIRA_DESCRIPTION then pyStrip c.JIRA_DESCRIPTION else noDescription
  "## 📋 Requirements\n\n"
    ++ description
    ++ "\n\n## ✅ Acceptance Criteria\n\n"
    ++ checklistBlock
    ++ "\n\n## 🔗 Jira Reference\n\n**Jira Issue:** ["
    ++ optStr c.JIRA_ISSUE_KEY
    ++ "]("
    ++ c.JIRA_ISSUE_URL
    ++ ")\n**Priority:** "
    ++ c.JIRA_PRIORITY
    ++ "\n**Type:** "
    ++ c.JIRA_ISSUE_TYPE
    ++ "\n\n---\n\n*This issue was automatically created from Jira and assigned to GitHub Copilot coding agent for implementation.*\n"

/-! ### HTTP oracles and the two request steps -/

/-- A decoded issue object, as far as the script reads it: `nonempty` models
the Python truthiness `bool(dict)` of the decoded JSON object (`false`
exactly for the empty object), and the remaining fields are the `.get`
accesses the script performs. -/
structure Issue where
  nonempty : Bool
  number : Option Int
  html_url : Option String
  labels : List String

/-- The decoded body of a successful search response: `total_count` read via
`data.get("total_count", 0)`, and the `items` array. -/
structure SearchData where
  total_count : Option Int
  items : List Issue

/-- Outcome of the `requests.get` search call: either a transport/HTTP error
(anything raising `requests.exceptions.RequestException`, including
`raise_for_status`), or a decoded JSON payload. -/
inductive SearchOutcome where
  | transportError (msg : String)
  | success (data : SearchData)

/-- Outcome of the `requests.post` creation call: either a transport/HTTP
error with the exception text and the response body when one is attached, or
the decoded created issue. -/
inductive CreateOutcome where
  | transportError (msg : String) (responseText : Option String)
  | success (issue : Issue)

/-- Python exceptions that escape the `try` of `search_existing_issue`
(its `except` clause catches only `requests.exceptions.RequestException`). -/
inductive PyErr where
  | indexError

/-- `search_existing_issue`: returns the lines it prints together with either
an uncaught exception or the optional first matching issue.  A positive
`total_count` with an empty `items` list raises `IndexError` at
`data["items"][0]`, which the `except RequestException` clause does not
catch. -/
def search_existing_issue (c : Config) (o : SearchOutcome) :
    List String × Except PyErr (Option Issue) :=
  let pre := ["🔍 Searching for existing issues with key: " ++ optStr c.JIRA_ISSUE_KEY
      ++ " in " ++ c.TARGET_REPO_OWNER ++ "/" ++ c.TARGET_REPO_NAME]
  match o with
  | .transportError msg =>
      (pre ++ ["⚠️  Warning: Failed to search for existing issues: " ++ msg], .ok none)
  | .success data =>
      if 0 < data.total_count.getD 0 then
        match data.items with
        | [] => (pre, .error .indexError)
        | item :: _ => (pre, .ok (some item))
      else
        (pre, .ok none)

/-- The JSON payload of the creation request (`issue_data`). -/
structure IssueRequest where
  title : String
  body : String
  labels : List String
  assignees : List String

/-- The fixed assignee (`GITHUB_COPILOT_USERNAME`). -/
def GITHUB_COPILOT_USERNAME : String := "github"

/-- The `issue_data` payload built by `create_github_issue`. -/
def issueRequest (c : Config) : IssueRequest where
  title := "[" ++ optStr c.JIRA_ISSUE_KEY ++ "] " ++ c.JIRA_SUMMARY
  body := create_copilot_optimized_issue_body c
  labels := ["jira-sync", "copilot-agent", "priority-" ++ pyLower c.JIRA_PRIORITY]
  assignees := [GITHUB_COPILOT_USERNAME]

/-- `create_github_issue`: returns the printed lines together with either
`sys.exit` code 1 (on any `RequestException`, after printing the error and,
when a response is attached, its text) or the decoded created issue. -/
def create_github_issue (c : Config) (o : CreateOutcome) :
    List String × Except Int Issue :=
  let req := issueRequest c
  let pre := ["📝 Creating issue in " ++ c.TARGET_REPO_OWNER ++ "/" ++ c.TARGET_REPO_NAME,
      "   Title: " ++ req.title]
  match o with
  | .transportError msg responseText =>
      (pre ++ ["❌ Error creating GitHub issue: " ++ msg]
          ++ (match responseText with
              | some t => ["Response: " ++ t]
              | none => []),
       .error 1)
  | .success issue => (pre, .ok issue)

/-! ### The whole run (`main` wrapped by the `__main__` handler) -/

/-- Oracle for one invocation: the outcome each of the two HTTP calls would
have, were it issued. -/
structure World where
  search : SearchOutcome
  create : CreateOutcome

/-- Observable trace of one process invocation. -/
structure RunResult where
  exitCode : Int
  searchCalls : Nat
  createCalls : Nat
  skippedDuplicate : Bool
  createdOk : Bool
  output : List String

/-- One invocation: `main()` under the `__main__` wrapper that catches any
`Exception`, prints a fatal line and exits 1 (`sys.exit` raises `SystemExit`,
which that wrapper does not catch, so explicit exit codes pass through).
The duplicate branch follows the Python truthiness test `if existing_issue:`
of `main`: a returned item that decodes to the empty object is falsy, so the
run falls through to creation exactly as when the search returned `None`. -/
def run (env : Env) (w : World) : RunResult :=
  let c := loadConfig env
  let startLines := ["🚀 Starting Jira to GitHub Issue workflow...",
    "📍 Target Repository: " ++ c.TARGET_REPO_OWNER ++ "/" ++ c.TARGET_REPO_NAME,
    "📝 Jira Issue: " ++ optStr c.JIRA_ISSUE_KEY]
  let miss := missingVars c
  if miss = [] then
    let searchStep := search_existing_issue c w.search
    let createFlow : RunResult :=
      let createStep := create_github_issue c w.create
      match createStep.2 with
      | .error code =>
          { exitCode := code, searchCalls := 1, createCalls := 1,
            skippedDuplicate := false, createdOk := false,
            output := startLines ++ searchStep.1
              ++ ["✨ No existing issue found, creating new issue..."]
              ++ createStep.1 }
      | .ok issue =>
          { exitCode := 0, searchCalls := 1, createCalls := 1,
            skippedDuplicate := false, createdOk := true,
            output := startLines ++ searchStep.1
              ++ ["✨ No existing issue found, creating new issue..."]
              ++ createStep.1
              ++ ["✅ Successfully created issue #" ++ optIntStr issue.number,
                  "🔗 URL: " ++ optStr issue.html_url,
                  "🤖 Assigned to: @" ++ GITHUB_COPILOT_USERNAME ++ " (GitHub Copilot coding agent)",
                  "🏷️  Labels: " ++ pyJoin ", " issue.labels,
                  "\n::notice title=Issue Created::Created issue #" ++ optIntStr issue.number
                    ++ " in " ++ c.TARGET_REPO_OWNER ++ "/" ++ c.TARGET_REPO_NAME] }
    match searchStep.2 with
    | .error _ =>
        { exitCode := 1, searchCalls := 1, createCalls := 0,
          skippedDuplicate := false, createdOk := false,
          output := startLines ++ searchStep.1
            ++ ["❌ Fatal error: list index out of range"] }
    | .ok (some issue) =>
        if issue.nonempty then
          { exitCode := 0, searchCalls := 1, createCalls := 0,
            skippedDuplicate := true, createdOk := false,
            output := startLines ++ searchStep.1
              ++ ["ℹ️  Issue already exists: #" ++ optIntStr issue.number,
                  "🔗 URL: " ++ optStr issue.html_url,
                  "✅ Skipping creation - no duplicate will be created"] }
        else
          createFlow
    | .ok none =>
        createFlow
  else
    { exitCode := 1, searchCalls := 0, createCalls := 0,
      skippedDuplicate := false, createdOk := false,
      output := startLines ++ [missingMsg miss] }

/-! ### Concrete fixtures for witnesses and counterexamples -/

/-- A fully populated environment. -/
def envOk : Env where
  GITHUB_TOKEN := some "token"
  TARGET_REPO_OWNER := some "acme"
  TARGET_REPO_NAME := some "widgets"
  JIRA_ISSUE_KEY := some "PROJ-42"
  JIRA_SUMMARY := some "Fix login bug"
  JIRA_DESCRIPTION := some "Users cannot log in with SSO"
  JIRA_ISSUE_URL := some "https://example.invalid/browse/PROJ-42"
  JIRA_PRIORITY := some "High"
  JIRA_ISSUE_TYPE := some "Bug"

/-- A completely unset environment. -/
def envEmpty : Env where
  GITHUB_TOKEN := none
  TARGET_REPO_OWNER := none
  TARGET_REPO_NAME := none
  JIRA_ISSUE_KEY := none
  JIRA_SUMMARY := none
  JIRA_DESCRIPTION := none
  JIRA_ISSUE_URL := none
  JIRA_PRIORITY := none
  JIRA_ISSUE_TYPE := none

/-- A sample decoded issue object (a truthy, nonempty JSON object). -/
def sampleIssue : Issue where
  nonempty := true
  number := some 17
  html_url := some "https://example.invalid/issues/17"
  labels := ["jira-sync"]

/-- The decoding of the empty JSON object, which is falsy in Python. -/
def falsyIssue : Issue where
  nonempty := false
  number := none
  html_url := none
  labels := []

/-- A configuration whose description is a single space (whitespace-only). -/
def cfgWhitespaceDesc : Config where
  GITHUB_TOKEN := some "token"
  TARGET_REPO_OWNER := "acme"
  TARGET_REPO_NAME := "widgets"
  JIRA_ISSUE_KEY := some "PROJ-42"
  JIRA_SUMMARY := "Fix login bug"
  JIRA_DESCRIPTION := " "
  JIRA_ISSUE_URL := "https://example.invalid/browse/PROJ-42"
  JIRA_PRIORITY := "High"
  JIRA_ISSUE_TYPE := "Bug"

/-- A configuration whose description is empty. -/
def cfgEmptyDesc : Config where
  GITHUB_TOKEN := some "token"
  TARGET_REPO_OWNER := "acme"
  TARGET_REPO_NAME := "widgets"
  JIRA_ISSUE_KEY := some "PROJ-42"
  JIRA_SUMMARY := "Fix login bug"
  JIRA_DESCRIPTION := ""
  JIRA_ISSUE_URL := "https://example.invalid/browse/PROJ-42"
  JIRA_PRIORITY := "High"
  JIRA_ISSUE_TYPE := "Bug"

/-! ### Claim theorems -/

/-- C7: for every priority value, the label list sent with the creation
request has exactly three entries, the two fixed tags plus
`priority-` ++ the lower-cased priority, and the three are pairwise
distinct. -/
theorem labels_three_distinct (c : Config) :
    (issueRequest c).labels.length = 3 ∧
    (issueRequest c).labels =
      ["jira-sync", "copilot-agent", "priority-" ++ pyLower c.JIRA_PRIORITY] ∧
    (issueRequest c).labels.Nodup := by
  refine ⟨rfl, rfl, ?_⟩
  have hp : ∀ x : String, ("priority-" ++ x).data.head? = some 'p' := by
    intro x; cases x; rfl
  have h1 : "jira-sync" ≠ "priority-" ++ pyLower c.JIRA_PRIORITY := by
    intro he
    have := congrArg (fun s : String => s.data.head?) he
    dsimp only at this
    rw [hp] at this
    simp at this
  have h2 : "copilot-agent" ≠ "priority-" ++ pyLower c.JIRA_PRIORITY := by
    intro he
    have := congrArg (fun s : String => s.data.head?) he
    dsimp only at this
    rw [hp] at this
    simp at this
  simp [issueRequest, List.nodup_cons, h1, h2]

/-- C8: for every ticket input, the issue body contains, verbatim and in
fixed order, the four fixed acceptance-criteria checklist items (the
`checklistBlock` literal). -/
theorem body_contains_checklist (c : Config) :
    occursB checklistBlock (create_copilot_optimized_issue_body c) = true := by
  dsimp only [create_copilot_optimized_issue_body]
  apply occursB_append_right
  apply occursB_append_right
  apply occursB_append_right
  apply occursB_append_right
  apply occursB_append_right
  apply occursB_append_right
  apply occursB_append_right
  apply occursB_append_right
  apply occursB_append_right
  exact occursB_append_left _ (occursB_self _)

set_option maxRecDepth 10000 in
/-- C2 counterexample: a whitespace-only description (a single space) is
truthy in Python, so it is stripped to the empty string and the body does
NOT contain the literal "No description provided.", contradicting the claim
for whitespace-only descriptions. -/
theorem whitespace_desc_no_placeholder :
    pyStrip " " = "" ∧
    occursB noDescription (create_copilot_optimized_issue_body cfgWhitespaceDesc) = false := by
  constructor
  · rfl
  · decide

/-- C2 (amended): if the description is the empty string the body contains
the literal "No description provided."; if it is nonempty the body contains
the stripped description (which is empty for whitespace-only input, so no
placeholder appears there). -/
theorem body_description_insertion (c : Config) :
    (c.JIRA_DESCRIPTION = "" →
      occursB noDescription (create_copilot_optimized_issue_body c) = true) ∧
    (c.JIRA_DESCRIPTION ≠ "" →
      occursB (pyStrip c.JIRA_DESCRIPTION) (create_copilot_optimized_issue_body c) = true) := by
  constructor
  · intro h
    have ht : pyTruthy c.JIRA_DESCRIPTION = false := by
      simp [pyTruthy, h]
    dsimp only [create_copilot_optimized_issue_body]
    rw [ht]
    simp only [Bool.false_eq_true, if_false]
    apply occursB_append_right
    apply occursB_append_right
    apply occursB_append_right
    apply occursB_append_right
    apply occursB_append_right
    apply occursB_append_right
    apply occursB_append_right
    apply occursB_append_right
    apply occursB_append_right
    apply occursB_append_right
    apply occursB_append_right
    exact occursB_append_left _ (occursB_self _)
  · intro h
    have ht : pyTruthy c.JIRA_DESCRIPTION = true := by
      simp [pyTruthy, h]
    dsimp only [create_copilot_optimized_issue_body]
    rw [ht]
    simp only [if_true]
    apply occursB_append_right
    apply occursB_append_right
    apply occursB_append_right
    apply occursB_append_right
    apply occursB_append_right
    apply occursB_append_right
    apply occursB_append_right
    apply occursB_append_right
    apply occursB_append_right
    apply occursB_append_right
    apply occursB_append_right
    exact occursB_append_left _ (occursB_self _)

/-- C2 witness: the amended theorem applied at an empty description and at a
nonempty description. -/
theorem body_description_insertion_witness :
    occursB noDescription (create_copilot_optimized_issue_body cfgEmptyDesc) = true ∧
    occursB (pyStrip "Users cannot log in with SSO")
      (create_copilot_optimized_issue_body (loadConfig envOk)) = true :=
  ⟨(body_description_insertion cfgEmptyDesc).1 rfl,
   (body_description_insertion (loadConfig envOk)).2 (by decide)⟩

/-! ### Helper lemmas about the run -/

theorem create_error_code {c : Config} {o : CreateOutcome} {code : Int}
    (h : (create_github_issue c o).2 = Except.error code) : code = 1 := by
  cases o with
  | transportError msg rt => simpa [create_github_issue] using h.symm
  | success issue => simp [create_github_issue] at h

theorem search_positive_first {c : Config} {d : SearchData} {i : Issue}
    {rest : List Issue} (hpos : 0 < d.total_count.getD 0)
    (hitems : d.items = i :: rest) :
    (search_existing_issue c (SearchOutcome.success d)).2 = Except.ok (some i) := by
  obtain ⟨tc, items⟩ := d
  simp only at hitems hpos
  subst hitems
  simp [search_existing_issue, hpos]

/-- The world of C1's counterexample: the search responds with total count 1
whose single item decodes to the empty JSON object. -/
def worldFalsyItem : World where
  search := SearchOutcome.success ⟨some 1, [falsyIssue]⟩
  create := CreateOutcome.success sampleIssue

set_option maxRecDepth 10000 in
/-- C1 counterexample: at the decoded search response with total count 1 and
items `[the empty object]`, the count is positive and yet the run issues a
creation request, because the `if existing_issue:` test of `main` finds the
empty object falsy and falls through to creation. -/
theorem positive_count_falsy_item_creates :
    worldFalsyItem.search = SearchOutcome.success ⟨some 1, [falsyIssue]⟩ ∧
    0 < ((⟨some 1, [falsyIssue]⟩ : SearchData).total_count.getD 0) ∧
    (run envOk worldFalsyItem).createCalls = 1 :=
  ⟨rfl, by decide, by decide⟩

/-- C1 (amended): if the duplicate-check search reports a positive total
count and its first item is a truthy (nonempty) object, no creation request
is issued; and every invocation issues at most one creation request. -/
theorem no_create_on_truthy_duplicate (env : Env) (w : World) :
    ((∃ d i rest, w.search = SearchOutcome.success d ∧ 0 < d.total_count.getD 0 ∧
        d.items = i :: rest ∧ i.nonempty = true) →
      (run env w).createCalls = 0) ∧
    (run env w).createCalls ≤ 1 := by
  constructor
  · rintro ⟨d, i, rest, hd, hpos, hitems, htruthy⟩
    have hfirst : (search_existing_issue (loadConfig env) w.search).2 =
        Except.ok (some i) := by
      rw [hd]
      exact search_positive_first hpos hitems
    simp only [run]
    split
    · split
      · simp
      · next issue heq =>
          have hi : some i = some issue := by
            have := hfirst.symm.trans heq
            simpa using this
          cases hi
          rw [if_pos htruthy]
      · next heq =>
          have := hfirst.symm.trans heq
          simp at this
    · simp
  · simp only [run]
    split
    · split
      · simp
      · split
        · simp
        · split <;> simp
      · split <;> simp
    · simp

/-- C1 witness: a concrete run whose search response reports one existing
(nonempty) issue makes no creation call. -/
theorem no_create_on_truthy_duplicate_witness :
    (∃ d i rest, (World.mk (SearchOutcome.success ⟨some 1, [sampleIssue]⟩)
        (CreateOutcome.success sampleIssue)).search = SearchOutcome.success d ∧
      0 < d.total_count.getD 0 ∧ d.items = i :: rest ∧ i.nonempty = true) ∧
    (run envOk (World.mk (SearchOutcome.success ⟨some 1, [sampleIssue]⟩)
        (CreateOutcome.success sampleIssue))).createCalls = 0 :=
  ⟨⟨⟨some 1, [sampleIssue]⟩, sampleIssue, [], rfl, by decide, rfl, by decide⟩,
   (no_create_on_truthy_duplicate envOk _).1
     ⟨⟨some 1, [sampleIssue]⟩, sampleIssue, [], rfl, by decide, rfl, by decide⟩⟩

/-- Shared concrete worlds for witnesses. -/
def worldCreateOk : World where
  search := SearchOutcome.success ⟨some 0, []⟩
  create := CreateOutcome.success sampleIssue

def worldSearchFail : World where
  search := SearchOutcome.transportError "timeout"
  create := CreateOutcome.success sampleIssue

def worldCreateFail : World where
  search := SearchOutcome.success ⟨some 0, []⟩
  create := CreateOutcome.transportError "422 Client Error" (some "Validation Failed")

def worldBadData : World where
  search := SearchOutcome.success ⟨some 1, []⟩
  create := CreateOutcome.success sampleIssue

/-- C3: whenever any of the four mandatory configuration values is absent or
empty, the run exits with status 1 and prints a diagnostic that names every
missing field. -/
theorem missing_config_fatal (env : Env) (w : World)
    (h : ∃ p ∈ requiredVars (loadConfig env), optTruthy p.2 = false) :
    (run env w).exitCode = 1 ∧
    missingMsg (missingVars (loadConfig env)) ∈ (run env w).output ∧
    ∀ p ∈ requiredVars (loadConfig env), optTruthy p.2 = false →
      occursB p.1 (missingMsg (missingVars (loadConfig env))) = true := by
  obtain ⟨p, hp, hfalse⟩ := h
  have hmem : p.1 ∈ missingVars (loadConfig env) := by
    unfold missingVars
    exact List.mem_map_of_mem Prod.fst (List.mem_filter.mpr ⟨hp, by simp [hfalse]⟩)
  have hne : ¬ missingVars (loadConfig env) = [] := by
    intro hnil
    rw [hnil] at hmem
    cases hmem
  refine ⟨?_, ?_, ?_⟩
  · simp only [run]
    rw [if_neg hne]
  · simp only [run]
    rw [if_neg hne]
    simp
  · intro q hq hqf
    have hqmem : q.1 ∈ missingVars (loadConfig env) := by
      unfold missingVars
      exact List.mem_map_of_mem Prod.fst (List.mem_filter.mpr ⟨hq, by simp [hqf]⟩)
    unfold missingMsg
    exact occursB_append_left _ (occursB_join_of_mem hqmem)

/-- C3 witness: with nothing configured the run exits 1 and the diagnostic
names each missing variable. -/
theorem missing_config_fatal_witness :
    (∃ p ∈ requiredVars (loadConfig envEmpty), optTruthy p.2 = false) ∧
    ((run envEmpty worldCreateOk).exitCode = 1 ∧
      missingMsg (missingVars (loadConfig envEmpty)) ∈ (run envEmpty worldCreateOk).output ∧
      ∀ p ∈ requiredVars (loadConfig envEmpty), optTruthy p.2 = false →
        occursB p.1 (missingMsg (missingVars (loadConfig envEmpty))) = true) :=
  ⟨by decide, missing_config_fatal envEmpty worldCreateOk (by decide)⟩

/-- C4: the exit status is 0 exactly when the run skipped creation because a
duplicate was found or created the issue successfully, and every other path
exits with status 1. -/
theorem exit_code_zero_iff_success (env : Env) (w : World) :
    ((run env w).exitCode = 0 ↔
      ((run env w).skippedDuplicate = true ∨ (run env w).createdOk = true)) ∧
    ((run env w).exitCode = 0 ∨ (run env w).exitCode = 1) := by
  simp only [run]
  split
  · split
    · simp
    · split
      · simp
      · split
        · next code heq =>
            have hcode := create_error_code heq
            subst hcode
            simp
        · simp
    · split
      · next code heq =>
          have hcode := create_error_code heq
          subst hcode
          simp
      · simp
  · simp

/-- C5: a transport failure during the duplicate-check search logs a warning,
returns absence, and the run proceeds to issue exactly one creation
request. -/
theorem search_transport_failure_proceeds (env : Env) (w : World) (msg : String)
    (hmiss : missingVars (loadConfig env) = [])
    (hs : w.search = SearchOutcome.transportError msg) :
    (search_existing_issue (loadConfig env) w.search).2 = Except.ok none ∧
    ("⚠️  Warning: Failed to search for existing issues: " ++ msg) ∈ (run env w).output ∧
    (run env w).createCalls = 1 := by
  obtain ⟨ws, wc⟩ := w
  cases hs
  refine ⟨rfl, ?_, ?_⟩
  · cases wc <;> simp [run, search_existing_issue, create_github_issue, hmiss]
  · cases wc <;> simp [run, search_existing_issue, create_github_issue, hmiss]

/-- C5 witness: a concrete run whose search call fails with a transport error
still issues its creation request and logs the warning. -/
theorem search_transport_failure_proceeds_witness :
    missingVars (loadConfig envOk) = [] ∧
    worldSearchFail.search = SearchOutcome.transportError "timeout" ∧
    ((search_existing_issue (loadConfig envOk) worldSearchFail.search).2 = Except.ok none ∧
      ("⚠️  Warning: Failed to search for existing issues: timeout")
        ∈ (run envOk worldSearchFail).output ∧
      (run envOk worldSearchFail).createCalls = 1) :=
  ⟨by decide, rfl, search_transport_failure_proceeds envOk worldSearchFail "timeout" (by decide) rfl⟩

/-- C6: a failed creation request prints the error, prints the raw response
text when a response body is attached, exits with status 1, and makes no
further creation attempt (exactly one creation call). -/
theorem create_failure_fatal (env : Env) (w : World) (msg : String) (rt : Option String)
    (hmiss : missingVars (loadConfig env) = [])
    (hsearch : (search_existing_issue (loadConfig env) w.search).2 = Except.ok none)
    (hc : w.create = CreateOutcome.transportError msg rt) :
    (run env w).exitCode = 1 ∧
    (run env w).createCalls = 1 ∧
    ("❌ Error creating GitHub issue: " ++ msg) ∈ (run env w).output ∧
    ∀ t, rt = some t → ("Response: " ++ t) ∈ (run env w).output := by
  obtain ⟨ws, wc⟩ := w
  cases hc
  refine ⟨?_, ?_, ?_, ?_⟩
  · simp [run, hmiss, hsearch, create_github_issue]
  · simp [run, hmiss, hsearch, create_github_issue]
  · simp [run, hmiss, hsearch, create_github_issue]
  · intro t ht
    cases ht
    simp [run, hmiss, hsearch, create_github_issue]

/-- C6 witness: a concrete creation failure with an attached response body
exits 1 and prints both the error and the response text. -/
theorem create_failure_fatal_witness :
    missingVars (loadConfig envOk) = [] ∧
    (search_existing_issue (loadConfig envOk) worldCreateFail.search).2 = Except.ok none ∧
    ((run envOk worldCreateFail).exitCode = 1 ∧
      (run envOk worldCreateFail).createCalls = 1 ∧
      ("❌ Error creating GitHub issue: 422 Client Error") ∈ (run envOk worldCreateFail).output ∧
      ∀ t, (some "Validation Failed" : Option String) = some t →
        ("Response: " ++ t) ∈ (run envOk worldCreateFail).output) :=
  ⟨by decide, rfl,
   create_failure_fatal envOk worldCreateFail "422 Client Error" (some "Validation Failed")
     (by decide) rfl rfl⟩

/-! ### Evaluation of the missing-variable computation -/

theorem optTruthy_some (s : String) : optTruthy (some s) = pyTruthy s := rfl

theorem missingVars_eval (c : Config) :
    missingVars c =
      (if optTruthy c.GITHUB_TOKEN then [] else ["GITHUB_TOKEN"]) ++
      ((if pyTruthy c.TARGET_REPO_OWNER then [] else ["TARGET_REPO_OWNER"]) ++
      ((if pyTruthy c.TARGET_REPO_NAME then [] else ["TARGET_REPO_NAME"]) ++
      (if optTruthy c.JIRA_ISSUE_KEY then [] else ["JIRA_ISSUE_KEY"]))) := by
  unfold missingVars requiredVars
  cases h1 : optTruthy c.GITHUB_TOKEN <;>
  cases h2 : pyTruthy c.TARGET_REPO_OWNER <;>
  cases h3 : pyTruthy c.TARGET_REPO_NAME <;>
  cases h4 : optTruthy c.JIRA_ISSUE_KEY <;>
    simp [List.filter, optTruthy_some, h1, h2, h3, h4]

/-- C9: the repository owner and name default to nonempty fallback values
before the mandatory-field check, so they are reported missing exactly when
explicitly set to the empty string, and with nothing configured only the
token and the Jira key are reported missing. -/
theorem repo_defaults (env : Env) :
    (env.TARGET_REPO_OWNER = none →
      (loadConfig env).TARGET_REPO_OWNER = "Karthi-Knackforge") ∧
    (env.TARGET_REPO_NAME = none →
      (loadConfig env).TARGET_REPO_NAME = "cms-project") ∧
    ("TARGET_REPO_OWNER" ∈ missingVars (loadConfig env) ↔
      env.TARGET_REPO_OWNER = some "") ∧
    ("TARGET_REPO_NAME" ∈ missingVars (loadConfig env) ↔
      env.TARGET_REPO_NAME = some "") ∧
    missingVars (loadConfig envEmpty) = ["GITHUB_TOKEN", "JIRA_ISSUE_KEY"] := by
  have hmo : "TARGET_REPO_OWNER" ∈ missingVars (loadConfig env) ↔
      pyTruthy (loadConfig env).TARGET_REPO_OWNER = false := by
    rw [missingVars_eval]
    cases h1 : optTruthy (loadConfig env).GITHUB_TOKEN <;>
    cases h2 : pyTruthy (loadConfig env).TARGET_REPO_OWNER <;>
    cases h3 : pyTruthy (loadConfig env).TARGET_REPO_NAME <;>
    cases h4 : optTruthy (loadConfig env).JIRA_ISSUE_KEY <;>
      decide
  have hmn : "TARGET_REPO_NAME" ∈ missingVars (loadConfig env) ↔
      pyTruthy (loadConfig env).TARGET_REPO_NAME = false := by
    rw [missingVars_eval]
    cases h1 : optTruthy (loadConfig env).GITHUB_TOKEN <;>
    cases h2 : pyTruthy (loadConfig env).TARGET_REPO_OWNER <;>
    cases h3 : pyTruthy (loadConfig env).TARGET_REPO_NAME <;>
    cases h4 : optTruthy (loadConfig env).JIRA_ISSUE_KEY <;>
      decide
  have howner : pyTruthy (loadConfig env).TARGET_REPO_OWNER = false ↔
      env.TARGET_REPO_OWNER = some "" := by
    cases ho : env.TARGET_REPO_OWNER with
    | none => simp [loadConfig, ho]; decide
    | some s => simp [loadConfig, ho, pyTruthy]
  have hname : pyTruthy (loadConfig env).TARGET_REPO_NAME = false ↔
      env.TARGET_REPO_NAME = some "" := by
    cases hn : env.TARGET_REPO_NAME with
    | none => simp [loadConfig, hn]; decide
    | some s => simp [loadConfig, hn, pyTruthy]
  refine ⟨?_, ?_, hmo.trans howner, hmn.trans hname, by decide⟩
  · intro h
    simp [loadConfig, h]
  · intro h
    simp [loadConfig, h]

/-- C9 witness: with an empty environment the defaults apply, so the owner is
not reported missing. -/
theorem repo_defaults_witness :
    (loadConfig envEmpty).TARGET_REPO_OWNER = "Karthi-Knackforge" ∧
    (loadConfig envEmpty).TARGET_REPO_NAME = "cms-project" ∧
    "TARGET_REPO_OWNER" ∉ missingVars (loadConfig envEmpty) :=
  ⟨(repo_defaults envEmpty).1 rfl, (repo_defaults envEmpty).2.1 rfl,
   fun hmem => Option.noConfusion ((repo_defaults envEmpty).2.2.1.mp hmem)⟩

/-- C10: a search response with a positive total count but an empty items
list raises an uncaught indexing error: the run exits with status 1 and no
creation request is issued. -/
theorem positive_count_empty_items_fatal (env : Env) (w : World) (d : SearchData)
    (hmiss : missingVars (loadConfig env) = [])
    (hs : w.search = SearchOutcome.success d)
    (hpos : 0 < d.total_count.getD 0)
    (hempty : d.items = []) :
    (search_existing_issue (loadConfig env) w.search).2 = Except.error PyErr.indexError ∧
    (run env w).exitCode = 1 ∧
    (run env w).createCalls = 0 := by
  obtain ⟨ws, wc⟩ := w
  cases hs
  obtain ⟨tc, items⟩ := d
  simp only at hempty hpos
  subst hempty
  refine ⟨?_, ?_, ?_⟩ <;>
    simp [run, search_existing_issue, hmiss, hpos]

/-- C10 witness: a concrete malformed search response (count 1, no items)
makes the run exit 1 without a creation call. -/
theorem positive_count_empty_items_fatal_witness :
    missingVars (loadConfig envOk) = [] ∧
    worldBadData.search = SearchOutcome.success ⟨some 1, []⟩ ∧
    ((search_existing_issue (loadConfig envOk) worldBadData.search).2 =
        Except.error PyErr.indexError ∧
      (run envOk worldBadData).exitCode = 1 ∧
      (run envOk worldBadData).createCalls = 0) :=
  ⟨by decide, rfl,
   positive_count_empty_items_fatal envOk worldBadData ⟨some 1, []⟩
     (by decide) rfl (by decide) rfl⟩

end CreateIssue
